import Mathlib

/-!
Shallow embedding of `modules/modelLoader/StableDiffusionModelLoader.py`
(repository bvhari/OneTrainer).

The loader is glue code around external ML libraries, so every external
effect (filesystem reads, `torch.load`, `from_pretrained`, the diffusers
checkpoint converter, `safe_open`) is a field of an explicit environment
`Env`; Python exceptions are modelled by `Except PyExc`.  The control flow
of the methods of `StableDiffusionModelLoader` is transcribed statement by
statement from the source.  Paths use POSIX semantics (`os.path.join`,
`os.path.splitext`).  Foreign objects (tokenizers, tensors, configs) are
abstract handles of type `Nat`; their internal structure plays no role in
the loader.
-/

/-- A Python exception, as far as the loader distinguishes them:
`FileNotFoundError` is caught specially, `TypeError` arises from passing
`None` where a `str` is required, `exception` is a plain `Exception(msg)`,
and `other` covers every further class. -/
inductive PyExc where
  | fileNotFound (msg : String)
  | typeError (msg : String)
  | exception (msg : String)
  | other (kind : String) (msg : String)
deriving Repr, DecidableEq

/-- `traceback.format_exc()` output for an exception, abstracted as one
string per exception. -/
def formatExc : PyExc → String
  | .fileNotFound msg => "FileNotFoundError: " ++ msg
  | .typeError msg => "TypeError: " ++ msg
  | .exception msg => "Exception: " ++ msg
  | .other kind msg => kind ++ ": " ++ msg

/-- Sequencing of Python statements: an uncaught exception aborts the
rest of the method body. -/
def pyBind {α β : Type} (e : Except PyExc α) (k : α → Except PyExc β) : Except PyExc β :=
  match e with
  | .error ex => .error ex
  | .ok a => k a

/-- The message of the `TypeError` raised by `os.path`-style functions when
given `None` instead of a string. -/
def noneTypeMsg : String := "expected str, bytes or os.PathLike object, not NoneType"

/-- The message of the `TypeError` raised by `"..." + None`. -/
def strConcatNoneMsg : String := "can only concatenate str (not \"NoneType\") to str"

/-- Using an `str | None` value as a path: `None` raises `TypeError`
(as `open`, `os.path.join`, `os.path.splitext` do). -/
def asPath (p : Option String) : Except PyExc String :=
  match p with
  | none => .error (.typeError noneTypeMsg)
  | some s => .ok s

/-- Index of the last occurrence of `c` in `cs`, if any. -/
def lastIndexOf (c : Char) (cs : List Char) : Option Nat :=
  (cs.enum.filterMap (fun p => if p.2 = c then some p.1 else none)).getLast?

/-- `os.path.splitext(p)[0]` (POSIX): drop the extension starting at the
last dot of the final path component, unless that component consists of
leading dots only up to that dot. -/
def splitextRoot (p : String) : String :=
  let cs := p.data
  match lastIndexOf '.' cs with
  | none => p
  | some d =>
    let start := match lastIndexOf '/' cs with
      | none => 0
      | some sep => sep + 1
    if start ≤ d then
      if (List.range (d - start)).any (fun k => cs.get? (start + k) ≠ some '.') then
        ⟨cs.take d⟩
      else p
    else p

/-- `os.path.join(a, b)` for two string components (POSIX). -/
def osJoinStr (a b : String) : String :=
  if b.startsWith "/" then b
  else if a = "" ∨ a.endsWith "/" then a ++ b
  else a ++ "/" ++ b

/-- `os.path.join(base, b)` with `base : str | None`: `None` raises
`TypeError`. -/
def osJoin (base : Option String) (b : String) : Except PyExc String :=
  pyBind (asPath base) (fun a => .ok (osJoinStr a b))

/-- The members of `modules.util.enum.ModelType` that
`StableDiffusionModelLoader` distinguishes.  The enum itself is outside the
given sources; every member other than the eight Stable Diffusion types
named in `__default_yaml_name` falls into the wildcard branch of its
`match` and is collapsed into the constructor `OTHER`. -/
inductive ModelType where
  | STABLE_DIFFUSION_15
  | STABLE_DIFFUSION_15_INPAINTING
  | STABLE_DIFFUSION_20
  | STABLE_DIFFUSION_20_BASE
  | STABLE_DIFFUSION_20_INPAINTING
  | STABLE_DIFFUSION_20_DEPTH
  | STABLE_DIFFUSION_21
  | STABLE_DIFFUSION_21_BASE
  | OTHER
deriving Repr, DecidableEq

/-- A torch dtype, abstract. -/
abbrev TorchDtype := Nat

/-- One entry of `ModelWeightDtypes`: exposes `torch_dtype()`. -/
structure DataType where
  torchDtypeVal : TorchDtype
deriving Repr, DecidableEq

/-- `DataType.torch_dtype()`. -/
def DataType.torch_dtype (d : DataType) : TorchDtype := d.torchDtypeVal

/-- The fields of `modules.util.ModelWeightDtypes` the loader reads. -/
structure ModelWeightDtypes where
  text_encoder : DataType
  vae : DataType
  unet : DataType
deriving Repr, DecidableEq

/-- `modules.util.TrainProgress`, as constructed from `meta.json`. -/
structure TrainProgress where
  epoch : Nat
  epoch_step : Nat
  epoch_sample : Nat
  global_step : Nat
deriving Repr, DecidableEq

/-- A Python dict of strings (JSON objects and safetensors metadata). -/
abbrev Dict := List (String × String)

/-- `modules.util.modelSpec.ModelSpec`: either the freshly constructed
default `ModelSpec()` or the result of a successful
`ModelSpec.from_dict(d)`. -/
inductive ModelSpec where
  | defaults
  | ofDict (d : Dict)
deriving Repr, DecidableEq

/-- The pipeline object returned by
`download_from_original_stable_diffusion_ckpt`; the loader reads these
four attributes. -/
structure Pipeline where
  tokenizer : Nat
  text_encoder : Nat
  vae : Nat
  unet : Nat
deriving Repr, DecidableEq

/-- `modules.model.StableDiffusionModel`, restricted to the fields this
loader constructs or assigns.  Python-level `None` is `Option.none`; the
fields the constructor call does not mention default to unset. -/
structure StableDiffusionModel where
  model_type : ModelType
  tokenizer : Nat
  noise_scheduler : Nat
  text_encoder : Nat
  vae : Nat
  unet : Nat
  image_depth_processor : Option Nat
  depth_estimator : Option Nat
  sd_config : Nat
  model_spec : Option ModelSpec
  optimizer_state_dict : Option Nat := none
  ema_state_dict : Option Nat := none
  train_progress : Option TrainProgress := none
deriving Repr, DecidableEq

/-- The external world: filesystem contents and the outcome of every
library call the loader makes.  `from_pretrained`-style calls take the
`str | None` model name exactly as the source passes it. -/
structure Env where
  pathExists : String → Bool
  readMetaJson : String → Except PyExc TrainProgress
  torchLoad : String → Except PyExc Nat
  readYaml : String → Except PyExc Nat
  readModelSpecJson : String → Except PyExc Dict
  fromDictRaises : Dict → Option PyExc
  tokenizerFromPretrained : Option String → Except PyExc Nat
  schedulerFromPretrained : Option String → Except PyExc Nat
  textEncoderFromPretrained : Option String → TorchDtype → Except PyExc Nat
  vaeFromPretrained : Option String → TorchDtype → Except PyExc Nat
  unetFromPretrained : Option String → TorchDtype → Except PyExc Nat
  imageDepthProcessorFromPretrained : Option String → Except PyExc Nat
  depthEstimatorFromPretrained : Option String → TorchDtype → Except PyExc Nat
  hasDepthInput : ModelType → Bool
  downloadFromOriginalCkpt : Option String → Option String → Bool → Except PyExc Pipeline
  safeOpenMetadata : Option String → Except PyExc Dict
  toDtype : Nat → TorchDtype → Nat

/-- `ModelSpec.from_dict(d)`: the environment decides whether parsing
raises; on success the spec carries the dict. -/
def modelSpecFromDict (env : Env) (d : Dict) : Except PyExc ModelSpec :=
  match env.fromDictRaises d with
  | some e => .error e
  | none => .ok (.ofDict d)

namespace StableDiffusionModelLoader

/-- `StableDiffusionModelLoader.__default_yaml_name`, transcribed from its
`match model_type` statement. -/
def __default_yaml_name (model_type : ModelType) : Option String :=
  match model_type with
  | .STABLE_DIFFUSION_15 => some "resources/diffusers_model_config/v1-inference.yaml"
  | .STABLE_DIFFUSION_15_INPAINTING => some "resources/diffusers_model_config/v1-inpainting-inference.yaml"
  | .STABLE_DIFFUSION_20 => some "resources/diffusers_model_config/v2-inference-v.yaml"
  | .STABLE_DIFFUSION_20_BASE => some "resources/diffusers_model_config/v2-inference.yaml"
  | .STABLE_DIFFUSION_20_INPAINTING => some "resources/diffusers_model_config/v2-inpainting-inference.yaml"
  | .STABLE_DIFFUSION_20_DEPTH => some "resources/diffusers_model_config/v2-midas-inference.yaml"
  | .STABLE_DIFFUSION_21 => some "resources/diffusers_model_config/v2-inference-v.yaml"
  | .STABLE_DIFFUSION_21_BASE => some "resources/diffusers_model_config/v2-inference.yaml"
  | .OTHER => none

/-- `try: ... except FileNotFoundError: pass` around a single call:
success yields its value, `FileNotFoundError` yields nothing, any other
exception propagates. -/
def tryFileNotFound {α : Type} (e : Except PyExc α) : Except PyExc (Option α) :=
  match e with
  | .ok a => .ok (some a)
  | .error (.fileNotFound _) => .ok none
  | .error e => .error e

/-- `StableDiffusionModelLoader.__load_diffusers`, transcribed statement by
statement: five `from_pretrained` loads, the two depth components guarded
by `model_type.has_depth_input()`, the default yaml config, a fresh
`ModelSpec()`, then the `StableDiffusionModel(...)` construction. -/
def __load_diffusers (env : Env) (model_type : ModelType) (weight_dtypes : ModelWeightDtypes)
    (base_model_name : Option String) : Except PyExc (Option StableDiffusionModel) :=
  pyBind (env.tokenizerFromPretrained base_model_name) fun tokenizer =>
  pyBind (env.schedulerFromPretrained base_model_name) fun noise_scheduler =>
  pyBind (env.textEncoderFromPretrained base_model_name weight_dtypes.text_encoder.torch_dtype) fun text_encoder =>
  pyBind (env.vaeFromPretrained base_model_name weight_dtypes.vae.torch_dtype) fun vae =>
  pyBind (env.unetFromPretrained base_model_name weight_dtypes.unet.torch_dtype) fun unet =>
  pyBind (if env.hasDepthInput model_type then
            pyBind (env.imageDepthProcessorFromPretrained base_model_name) (fun c => .ok (some c))
          else .ok none) fun image_depth_processor =>
  pyBind (if env.hasDepthInput model_type then
            pyBind (env.depthEstimatorFromPretrained base_model_name weight_dtypes.unet.torch_dtype)
              (fun c => .ok (some c))
          else .ok none) fun depth_estimator =>
  pyBind (asPath (__default_yaml_name model_type)) fun yamlPath =>
  pyBind (env.readYaml yamlPath) fun sd_config =>
  let model_spec := ModelSpec.defaults
  .ok (some {
    model_type := model_type
    tokenizer := tokenizer
    noise_scheduler := noise_scheduler
    text_encoder := text_encoder
    vae := vae
    unet := unet
    image_depth_processor := image_depth_processor
    depth_estimator := depth_estimator
    sd_config := sd_config
    model_spec := some model_spec })

/-- `StableDiffusionModelLoader.__load_internal`: read `meta.json`, load
the base model through `__load_diffusers`, tolerate a missing optimizer or
EMA state, read the default yaml config, attach the train progress, and
attach the model spec from `model_spec.json` falling back to a default
`ModelSpec()` on any failure. -/
def __load_internal (env : Env) (model_type : ModelType) (weight_dtypes : ModelWeightDtypes)
    (base_model_name : Option String) : Except PyExc (Option StableDiffusionModel) :=
  pyBind (osJoin base_model_name "meta.json") fun metaPath =>
  pyBind (env.readMetaJson metaPath) fun train_progress =>
  pyBind (__load_diffusers env model_type weight_dtypes base_model_name) fun model? =>
  match model? with
  | none => .error (.other "AttributeError" "NoneType object has no attribute")
  | some model =>
  pyBind (osJoin base_model_name "optimizer") fun optDir =>
  pyBind (tryFileNotFound (env.torchLoad (osJoinStr optDir "optimizer.pt"))) fun optState =>
  let model := match optState with
    | some sd => { model with optimizer_state_dict := some sd }
    | none => model
  pyBind (osJoin base_model_name "ema") fun emaDir =>
  pyBind (tryFileNotFound (env.torchLoad (osJoinStr emaDir "ema.pt"))) fun emaState =>
  let model := match emaState with
    | some sd => { model with ema_state_dict := some sd }
    | none => model
  pyBind (asPath (__default_yaml_name model_type)) fun yamlPath =>
  pyBind (env.readYaml yamlPath) fun sd_config =>
  let model := { model with sd_config := sd_config }
  let model := { model with train_progress := some train_progress }
  let model := { model with model_spec := some ModelSpec.defaults }
  let model := match pyBind (osJoin base_model_name "model_spec.json") (fun specPath =>
      pyBind (env.readModelSpecJson specPath) (fun d => modelSpecFromDict env d)) with
    | .ok spec => { model with model_spec := some spec }
    | .error _ => model
  .ok (some model)

/-- The original-config fallback chain of `__load_ckpt`: the sidecar
`.yaml` next to the checkpoint if it exists, else the sidecar `.yml` if it
exists, else the model type's default config; `os.path.splitext` on `None`
raises `TypeError`. -/
def ckptYamlName (env : Env) (model_type : ModelType) (base_model_name : Option String) :
    Except PyExc (Option String) :=
  pyBind (asPath base_model_name) fun base =>
  let yaml_name := splitextRoot base ++ ".yaml"
  if env.pathExists yaml_name then .ok (some yaml_name)
  else
    let yaml_name := splitextRoot base ++ ".yml"
    if env.pathExists yaml_name then .ok (some yaml_name)
    else .ok (__default_yaml_name model_type)

/-- The identical original-config fallback chain at the top of
`__load_safetensors`, transcribed from its own lines. -/
def safetensorsYamlName (env : Env) (model_type : ModelType) (base_model_name : Option String) :
    Except PyExc (Option String) :=
  pyBind (asPath base_model_name) fun base =>
  let yaml_name := splitextRoot base ++ ".yaml"
  if env.pathExists yaml_name then .ok (some yaml_name)
  else
    let yaml_name := splitextRoot base ++ ".yml"
    if env.pathExists yaml_name then .ok (some yaml_name)
    else .ok (__default_yaml_name model_type)

/-- The `DDIMScheduler(...)` constructed with fixed literals in
`__load_ckpt` and `__load_safetensors`; its float hyperparameters play no
role here, so it is one abstract handle. -/
def ddimSchedulerFixed : Nat := 0

/-- `StableDiffusionModelLoader.__load_ckpt`: choose the original config
by the sidecar fallback chain, convert the checkpoint through
`download_from_original_stable_diffusion_ckpt`, build the fixed
`DDIMScheduler`, read the chosen yaml, and assemble the model with a fresh
`ModelSpec()`. -/
def __load_ckpt (env : Env) (model_type : ModelType) (weight_dtypes : ModelWeightDtypes)
    (base_model_name : Option String) : Except PyExc (Option StableDiffusionModel) :=
  pyBind (ckptYamlName env model_type base_model_name) fun yaml_name =>
  pyBind (env.downloadFromOriginalCkpt base_model_name yaml_name false) fun pipeline =>
  let noise_scheduler := ddimSchedulerFixed
  pyBind (asPath yaml_name) fun yamlPath =>
  pyBind (env.readYaml yamlPath) fun sd_config =>
  let model_spec := ModelSpec.defaults
  .ok (some {
    model_type := model_type
    tokenizer := pipeline.tokenizer
    noise_scheduler := noise_scheduler
    text_encoder := env.toDtype pipeline.text_encoder weight_dtypes.text_encoder.torch_dtype
    vae := env.toDtype pipeline.vae weight_dtypes.vae.torch_dtype
    unet := env.toDtype pipeline.unet weight_dtypes.unet.torch_dtype
    image_depth_processor := none
    depth_estimator := none
    sd_config := sd_config
    model_spec := some model_spec })

/-- `StableDiffusionModelLoader.__load_safetensors`: like `__load_ckpt`
but converting with `from_safetensors=True`, and additionally reading the
model spec from the safetensors metadata when the key
`modelspec.sai_model_spec` is present, swallowing any failure. -/
def __load_safetensors (env : Env) (model_type : ModelType) (weight_dtypes : ModelWeightDtypes)
    (base_model_name : Option String) : Except PyExc (Option StableDiffusionModel) :=
  pyBind (safetensorsYamlName env model_type base_model_name) fun yaml_name =>
  pyBind (env.downloadFromOriginalCkpt base_model_name yaml_name true) fun pipeline =>
  let noise_scheduler := ddimSchedulerFixed
  pyBind (asPath yaml_name) fun yamlPath =>
  pyBind (env.readYaml yamlPath) fun sd_config =>
  let model_spec := ModelSpec.defaults
  let model_spec := match pyBind (env.safeOpenMetadata base_model_name) (fun md =>
      if md.any (fun kv => kv.1 = "modelspec.sai_model_spec") then
        pyBind (modelSpecFromDict env md) (fun spec => .ok (some spec))
      else .ok none) with
    | .ok (some spec) => spec
    | .ok none => model_spec
    | .error _ => model_spec
  .ok (some {
    model_type := model_type
    tokenizer := pipeline.tokenizer
    noise_scheduler := noise_scheduler
    text_encoder := env.toDtype pipeline.text_encoder weight_dtypes.text_encoder.torch_dtype
    vae := env.toDtype pipeline.vae weight_dtypes.vae.torch_dtype
    unet := env.toDtype pipeline.unet weight_dtypes.unet.torch_dtype
    image_depth_processor := none
    depth_estimator := none
    sd_config := sd_config
    model_spec := some model_spec })

/-- The exception `load` raises after all strategies fail:
`Exception("could not load model: " + base_model_name)`, which is itself a
`TypeError` when `base_model_name` is `None`. -/
def finalExc : Option String → PyExc
  | some s => .exception ("could not load model: " ++ s)
  | none => .typeError strConcatNoneMsg

/-- Whether a strategy call succeeded with a non-`None` model, i.e. passed
the `if model is not None` check in `load`. -/
def isOkSome : Except PyExc (Option StableDiffusionModel) → Bool
  | .ok (some _) => true
  | _ => false

/-- The traceback `load` collects from one strategy call: one
`traceback.format_exc()` string if the strategy raised, nothing
otherwise. -/
def tbOf : Except PyExc (Option StableDiffusionModel) → Option String
  | .error e => some (formatExc e)
  | .ok _ => none

deriving instance DecidableEq for Except

/-- The outcome of `load`: `result` is its return value or uncaught
exception, `printed` the stacktraces printed before raising, and
`attempted` a ghost counter of how many strategies were entered. -/
structure LoadResult where
  attempted : Nat
  printed : List String
  result : Except PyExc (Option StableDiffusionModel)
deriving Repr, DecidableEq

/-- The try/except cascade of `load` over the remaining strategy results:
return the first non-`None` success, collect a traceback from each raise,
and after exhaustion print the tracebacks and raise the final exception. -/
def loadGo (base_model_name : Option String) :
    List (Except PyExc (Option StableDiffusionModel)) → Nat → List String → LoadResult
  | [], attempted, stacktraces =>
    { attempted := attempted, printed := stacktraces, result := .error (finalExc base_model_name) }
  | r :: rs, attempted, stacktraces =>
    match r with
    | .ok (some model) =>
      { attempted := attempted + 1, printed := [], result := .ok (some model) }
    | .ok none => loadGo base_model_name rs (attempted + 1) stacktraces
    | .error e => loadGo base_model_name rs (attempted + 1) (stacktraces ++ [formatExc e])

/-- The four strategy calls of `load`, in the order the source tries
them. -/
def stratResults (env : Env) (model_type : ModelType) (weight_dtypes : ModelWeightDtypes)
    (base_model_name : Option String) : List (Except PyExc (Option StableDiffusionModel)) :=
  [__load_internal env model_type weight_dtypes base_model_name,
   __load_diffusers env model_type weight_dtypes base_model_name,
   __load_safetensors env model_type weight_dtypes base_model_name,
   __load_ckpt env model_type weight_dtypes base_model_name]

/-- `StableDiffusionModelLoader.load`. -/
def load (env : Env) (model_type : ModelType) (weight_dtypes : ModelWeightDtypes)
    (base_model_name : Option String) : LoadResult :=
  loadGo base_model_name (stratResults env model_type weight_dtypes base_model_name) 0 []

/-- Whether a strategy call raised. -/
def isErr : Except PyExc (Option StableDiffusionModel) → Bool
  | .error _ => true
  | .ok _ => false

/-- A world in which every filesystem read and every library call fails:
the degenerate environment of a missing checkpoint. -/
def envAllFail : Env where
  pathExists := fun _ => false
  readMetaJson := fun _ => .error (.other "E" "meta")
  torchLoad := fun _ => .error (.other "E" "torch")
  readYaml := fun _ => .error (.other "E" "yaml")
  readModelSpecJson := fun _ => .error (.other "E" "spec")
  fromDictRaises := fun _ => none
  tokenizerFromPretrained := fun _ => .error (.other "E" "tok")
  schedulerFromPretrained := fun _ => .error (.other "E" "sched")
  textEncoderFromPretrained := fun _ _ => .error (.other "E" "te")
  vaeFromPretrained := fun _ _ => .error (.other "E" "vae")
  unetFromPretrained := fun _ _ => .error (.other "E" "unet")
  imageDepthProcessorFromPretrained := fun _ => .error (.other "E" "idp")
  depthEstimatorFromPretrained := fun _ _ => .error (.other "E" "de")
  hasDepthInput := fun _ => false
  downloadFromOriginalCkpt := fun _ _ _ => .error (.other "E" "dl")
  safeOpenMetadata := fun _ => .error (.other "E" "so")
  toDtype := fun c _ => c

/-- A fixed choice of weight dtypes for concrete evaluations. -/
def wdA : ModelWeightDtypes := ⟨⟨1⟩, ⟨2⟩, ⟨3⟩⟩

/-- A world in which only the diffusers directory layout is present: the
five `from_pretrained` calls and the yaml read succeed, everything else
fails. -/
def envDiffusersOk : Env := { envAllFail with
  tokenizerFromPretrained := fun _ => .ok 1
  schedulerFromPretrained := fun _ => .ok 2
  textEncoderFromPretrained := fun _ _ => .ok 3
  vaeFromPretrained := fun _ _ => .ok 4
  unetFromPretrained := fun _ _ => .ok 5
  readYaml := fun _ => .ok 7 }

/-- The model `__load_diffusers` produces in `envDiffusersOk`. -/
def mDiffusers : StableDiffusionModel where
  model_type := .STABLE_DIFFUSION_15
  tokenizer := 1
  noise_scheduler := 2
  text_encoder := 3
  vae := 4
  unet := 5
  image_depth_processor := none
  depth_estimator := none
  sd_config := 7
  model_spec := some .defaults

/-- A world in which only the safetensors layout converts: the checkpoint
converter succeeds exactly when called with `from_safetensors=True`. -/
def envSafetensorsOk : Env := { envAllFail with
  downloadFromOriginalCkpt := fun _ _ fromSafetensors =>
    if fromSafetensors then .ok ⟨11, 12, 13, 14⟩ else .error (.other "E" "dl")
  readYaml := fun _ => .ok 7 }

/-- The model `__load_safetensors` produces in `envSafetensorsOk`. -/
def mSafetensors : StableDiffusionModel where
  model_type := .STABLE_DIFFUSION_15
  tokenizer := 11
  noise_scheduler := ddimSchedulerFixed
  text_encoder := 12
  vae := 13
  unet := 14
  image_depth_processor := none
  depth_estimator := none
  sd_config := 7
  model_spec := some .defaults

/-- A world holding a complete internal (directory) checkpoint, except
that the optimizer and EMA state files are absent and `model_spec.json`
is unreadable. -/
def envInternalOk : Env := { envDiffusersOk with
  readMetaJson := fun _ => .ok ⟨1, 2, 3, 4⟩
  torchLoad := fun _ => .error (.fileNotFound "optimizer.pt") }

/-- The model `__load_internal` produces in `envInternalOk`. -/
def mInternal : StableDiffusionModel :=
  { mDiffusers with train_progress := some ⟨1, 2, 3, 4⟩ }

/-- A sample safetensors metadata dict carrying a model spec. -/
def mdSpec : Dict := [("modelspec.sai_model_spec", "1.0.0")]

/-- `envInternalOk` with a readable `model_spec.json`. -/
def envInternalSpec : Env := { envInternalOk with
  readModelSpecJson := fun _ => .ok mdSpec }

/-- `envSafetensorsOk` with safetensors metadata carrying a model spec. -/
def envSafetensorsSpec : Env := { envSafetensorsOk with
  safeOpenMetadata := fun _ => .ok mdSpec }

/-- The tail of `__load_internal` after all fallible steps have succeeded:
the successive attribute assignments performed on the model returned by
`__load_diffusers`. -/
def internalAssemble (env : Env) (b : String) (dm : StableDiffusionModel) (tp : TrainProgress)
    (optS emaS : Option Nat) (sdc : Nat) : StableDiffusionModel :=
  let model := match optS with
    | some sd => { dm with optimizer_state_dict := some sd }
    | none => dm
  let model := match emaS with
    | some sd => { model with ema_state_dict := some sd }
    | none => model
  let model := { model with sd_config := sdc }
  let model := { model with train_progress := some tp }
  let model := { model with model_spec := some ModelSpec.defaults }
  match pyBind (env.readModelSpecJson (osJoinStr b "model_spec.json")) (fun d =>
      modelSpecFromDict env d) with
  | .ok spec => { model with model_spec := some spec }
  | .error _ => model

/-- Inversion of exception sequencing. -/
theorem pyBind_eq_ok {α β : Type} {e : Except PyExc α} {k : α → Except PyExc β} {b : β} :
    pyBind e k = .ok b ↔ ∃ a, e = .ok a ∧ k a = .ok b := by
  cases e <;> simp [pyBind]

/-- An error on the left makes the whole sequence an error. -/
theorem pyBind_error {α β : Type} {e : Except PyExc α} {k : α → Except PyExc β} {ex : PyExc}
    (h : e = .error ex) : pyBind e k = .error ex := by
  subst h; rfl

/-- The cascade after exhausting all strategies: every traceback was
collected in order, every strategy was attempted, and the final exception
is raised. -/
theorem loadGo_all_fail (base : Option String)
    (rs : List (Except PyExc (Option StableDiffusionModel))) (att : Nat) (st : List String)
    (h : ∀ r ∈ rs, isOkSome r = false) :
    loadGo base rs att st =
      { attempted := att + rs.length, printed := st ++ rs.filterMap tbOf,
        result := .error (finalExc base) } := by
  induction rs generalizing att st with
  | nil => simp [loadGo]
  | cons r rs ih =>
    have hr := h r (List.mem_cons_self r rs)
    have hrs : ∀ r' ∈ rs, isOkSome r' = false := fun r' hm => h r' (List.mem_cons_of_mem r hm)
    match r with
    | .ok (some m) => simp [isOkSome] at hr
    | .ok none =>
      simp only [loadGo, tbOf, List.filterMap_cons]
      rw [ih (att + 1) st hrs]
      simp [Nat.add_assoc, Nat.add_comm 1 rs.length]
    | .error e =>
      simp only [loadGo, tbOf, List.filterMap_cons]
      rw [ih (att + 1) (st ++ [formatExc e]) hrs]
      simp [Nat.add_assoc, Nat.add_comm 1 rs.length]

/-- The cascade stops at the first strategy that returns a model: nothing
is printed and nothing beyond it is attempted. -/
theorem loadGo_first_success (base : Option String)
    (rs : List (Except PyExc (Option StableDiffusionModel))) (att : Nat) (st : List String)
    (i : Nat) (m : StableDiffusionModel)
    (h1 : (rs.take i).all (fun r => !isOkSome r) = true)
    (h2 : rs.get? i = some (.ok (some m))) :
    loadGo base rs att st =
      { attempted := att + i + 1, printed := [], result := .ok (some m) } := by
  induction rs generalizing att st i with
  | nil => simp [List.get?] at h2
  | cons r rs ih =>
    cases i with
    | zero =>
      simp only [List.get?] at h2
      injection h2 with h2
      subst h2
      simp [loadGo]
    | succ i =>
      simp only [List.take_succ_cons, List.all_cons, Bool.and_eq_true, Bool.not_eq_true'] at h1
      simp only [List.get?] at h2
      match r, h1.1 with
      | .ok none, _ =>
        rw [loadGo, ih (att + 1) st i h1.2 h2]
        have harith : att + 1 + i + 1 = att + (i + 1) + 1 := by omega
        rw [harith]
      | .error e, _ =>
        rw [loadGo, ih (att + 1) (st ++ [formatExc e]) i h1.2 h2]
        have harith : att + 1 + i + 1 = att + (i + 1) + 1 := by omega
        rw [harith]

/-- The cascade only ever returns a model some strategy produced. -/
theorem loadGo_ok_mem (base : Option String)
    (rs : List (Except PyExc (Option StableDiffusionModel))) (att : Nat) (st : List String)
    (v : Option StableDiffusionModel)
    (h : (loadGo base rs att st).result = .ok v) : .ok v ∈ rs := by
  induction rs generalizing att st with
  | nil => simp [loadGo] at h
  | cons r rs ih =>
    match r with
    | .ok (some m) =>
      simp only [loadGo] at h
      injection h with h
      subst h
      exact List.mem_cons_self _ _
    | .ok none => exact List.mem_cons_of_mem _ (ih (att + 1) st h)
    | .error e => exact List.mem_cons_of_mem _ (ih (att + 1) (st ++ [formatExc e]) h)

/-- The cascade never returns Python `None`. -/
theorem loadGo_ne_ok_none (base : Option String)
    (rs : List (Except PyExc (Option StableDiffusionModel))) (att : Nat) (st : List String) :
    (loadGo base rs att st).result ≠ .ok none := by
  induction rs generalizing att st with
  | nil => simp [loadGo]
  | cons r rs ih =>
    match r with
    | .ok (some m) => simp [loadGo]
    | .ok none => exact ih (att + 1) st
    | .error e => exact ih (att + 1) (st ++ [formatExc e])

/-- If some strategy produced a model, the cascade returns a model. -/
theorem loadGo_exists_success (base : Option String)
    (rs : List (Except PyExc (Option StableDiffusionModel))) (att : Nat) (st : List String)
    (h : ∃ r ∈ rs, isOkSome r = true) :
    ∃ m, (loadGo base rs att st).result = .ok (some m) := by
  induction rs generalizing att st with
  | nil => simp at h
  | cons r rs ih =>
    match r with
    | .ok (some m) => exact ⟨m, by simp [loadGo]⟩
    | .ok none =>
      rcases h with ⟨r', hm, hr'⟩
      rcases List.mem_cons.mp hm with rfl | hm
      · simp [isOkSome] at hr'
      · exact ih (att + 1) st ⟨r', hm, hr'⟩
    | .error e =>
      rcases h with ⟨r', hm, hr'⟩
      rcases List.mem_cons.mp hm with rfl | hm
      · simp [isOkSome] at hr'
      · exact ih (att + 1) (st ++ [formatExc e]) ⟨r', hm, hr'⟩

/-- A model coming out of `__load_diffusers` carries a fresh default
model spec and no optimizer, EMA or train-progress state. -/
theorem __load_diffusers_shape (env : Env) (mt : ModelType) (wd : ModelWeightDtypes)
    (base : Option String) (m : StableDiffusionModel)
    (h : __load_diffusers env mt wd base = .ok (some m)) :
    m.model_spec = some ModelSpec.defaults ∧ m.optimizer_state_dict = none ∧
      m.ema_state_dict = none ∧ m.train_progress = none := by
  unfold __load_diffusers at h
  rcases pyBind_eq_ok.1 h with ⟨a1, h1, h⟩
  rcases pyBind_eq_ok.1 h with ⟨a2, h2, h⟩
  rcases pyBind_eq_ok.1 h with ⟨a3, h3, h⟩
  rcases pyBind_eq_ok.1 h with ⟨a4, h4, h⟩
  rcases pyBind_eq_ok.1 h with ⟨a5, h5, h⟩
  rcases pyBind_eq_ok.1 h with ⟨a6, h6, h⟩
  rcases pyBind_eq_ok.1 h with ⟨a7, h7, h⟩
  rcases pyBind_eq_ok.1 h with ⟨a8, h8, h⟩
  rcases pyBind_eq_ok.1 h with ⟨a9, h9, h⟩
  injection h with h
  injection h with h
  subst h
  exact ⟨rfl, rfl, rfl, rfl⟩

/-- A model coming out of `__load_ckpt` carries a fresh default model
spec. -/
theorem __load_ckpt_shape (env : Env) (mt : ModelType) (wd : ModelWeightDtypes)
    (base : Option String) (m : StableDiffusionModel)
    (h : __load_ckpt env mt wd base = .ok (some m)) :
    m.model_spec = some ModelSpec.defaults := by
  unfold __load_ckpt at h
  rcases pyBind_eq_ok.1 h with ⟨a1, h1, h⟩
  rcases pyBind_eq_ok.1 h with ⟨a2, h2, h⟩
  rcases pyBind_eq_ok.1 h with ⟨a3, h3, h⟩
  rcases pyBind_eq_ok.1 h with ⟨a4, h4, h⟩
  injection h with h
  injection h with h
  subst h
  rfl

/-- A model coming out of `__load_safetensors` carries exactly the model
spec selected by the safetensors-metadata block: the parsed metadata when
`safe_open` succeeded, the key was present and parsing succeeded, and a
fresh default `ModelSpec()` otherwise. -/
theorem __load_safetensors_shape (env : Env) (mt : ModelType) (wd : ModelWeightDtypes)
    (base : Option String) (m : StableDiffusionModel)
    (h : __load_safetensors env mt wd base = .ok (some m)) :
    m.model_spec = some (
      match pyBind (env.safeOpenMetadata base) (fun md =>
          if md.any (fun kv => kv.1 = "modelspec.sai_model_spec") then
            pyBind (modelSpecFromDict env md) (fun spec => .ok (some spec))
          else .ok none) with
      | .ok (some spec) => spec
      | .ok none => ModelSpec.defaults
      | .error _ => ModelSpec.defaults) := by
  unfold __load_safetensors at h
  rcases pyBind_eq_ok.1 h with ⟨a1, h1, h⟩
  rcases pyBind_eq_ok.1 h with ⟨a2, h2, h⟩
  rcases pyBind_eq_ok.1 h with ⟨a3, h3, h⟩
  rcases pyBind_eq_ok.1 h with ⟨a4, h4, h⟩
  injection h with h
  injection h with h
  subst h
  rfl

/-- Inversion of `__load_internal`: a returned model is exactly the
diffusers model after the internal strategy's attribute assignments, and
every fallible step on the way succeeded. -/
theorem __load_internal_shape (env : Env) (mt : ModelType) (wd : ModelWeightDtypes)
    (b : String) (m : StableDiffusionModel)
    (h : __load_internal env mt wd (some b) = .ok (some m)) :
    ∃ (tp : TrainProgress) (dm : StableDiffusionModel) (optS emaS : Option Nat) (sdc : Nat),
      env.readMetaJson (osJoinStr b "meta.json") = .ok tp ∧
      __load_diffusers env mt wd (some b) = .ok (some dm) ∧
      tryFileNotFound (env.torchLoad (osJoinStr (osJoinStr b "optimizer") "optimizer.pt")) =
        .ok optS ∧
      tryFileNotFound (env.torchLoad (osJoinStr (osJoinStr b "ema") "ema.pt")) = .ok emaS ∧
      (∃ yp, asPath (__default_yaml_name mt) = .ok yp ∧ env.readYaml yp = .ok sdc) ∧
      m = internalAssemble env b dm tp optS emaS sdc := by
  unfold __load_internal at h
  rcases pyBind_eq_ok.1 h with ⟨mp, hmp, h⟩
  have hmp' : mp = osJoinStr b "meta.json" := by
    simp only [osJoin, asPath, pyBind] at hmp
    injection hmp with hmp
    exact hmp.symm
  subst hmp'
  rcases pyBind_eq_ok.1 h with ⟨tp, htp, h⟩
  rcases pyBind_eq_ok.1 h with ⟨model?, hdm, h⟩
  match model?, hdm with
  | none, hdm => simp at h
  | some dm, hdm =>
  rcases pyBind_eq_ok.1 h with ⟨optDir, hod, h⟩
  have hod' : optDir = osJoinStr b "optimizer" := by
    simp only [osJoin, asPath, pyBind] at hod
    injection hod with hod
    exact hod.symm
  subst hod'
  rcases pyBind_eq_ok.1 h with ⟨optS, hopt, h⟩
  rcases pyBind_eq_ok.1 h with ⟨emaDir, hed, h⟩
  have hed' : emaDir = osJoinStr b "ema" := by
    simp only [osJoin, asPath, pyBind] at hed
    injection hed with hed
    exact hed.symm
  subst hed'
  rcases pyBind_eq_ok.1 h with ⟨emaS, hema, h⟩
  rcases pyBind_eq_ok.1 h with ⟨yp, hyp, h⟩
  rcases pyBind_eq_ok.1 h with ⟨sdc, hsdc, h⟩
  injection h with h
  injection h with h
  exact ⟨tp, dm, optS, emaS, sdc, htp, hdm, hopt, hema, ⟨yp, hyp, hsdc⟩, h.symm⟩

/-- The model spec the internal strategy attaches: the parsed
`model_spec.json` when reading and parsing succeed, a fresh default
`ModelSpec()` otherwise. -/
theorem internalAssemble_model_spec (env : Env) (b : String) (dm : StableDiffusionModel)
    (tp : TrainProgress) (optS emaS : Option Nat) (sdc : Nat) :
    (internalAssemble env b dm tp optS emaS sdc).model_spec = some (
      match pyBind (env.readModelSpecJson (osJoinStr b "model_spec.json")) (fun d =>
          modelSpecFromDict env d) with
      | .ok spec => spec
      | .error _ => ModelSpec.defaults) := by
  unfold internalAssemble
  cases hps : pyBind (env.readModelSpecJson (osJoinStr b "model_spec.json")) (fun d =>
      modelSpecFromDict env d) with
  | ok spec => cases optS <;> cases emaS <;> simp
  | error e => cases optS <;> cases emaS <;> simp

/-- The optimizer state the internal strategy leaves on the model. -/
theorem internalAssemble_optimizer (env : Env) (b : String) (dm : StableDiffusionModel)
    (tp : TrainProgress) (optS emaS : Option Nat) (sdc : Nat) :
    (internalAssemble env b dm tp optS emaS sdc).optimizer_state_dict =
      (match optS with
       | some sd => some sd
       | none => dm.optimizer_state_dict) := by
  unfold internalAssemble
  cases pyBind (env.readModelSpecJson (osJoinStr b "model_spec.json")) (fun d =>
      modelSpecFromDict env d) <;> cases optS <;> cases emaS <;> simp

/-- The EMA state the internal strategy leaves on the model. -/
theorem internalAssemble_ema (env : Env) (b : String) (dm : StableDiffusionModel)
    (tp : TrainProgress) (optS emaS : Option Nat) (sdc : Nat) :
    (internalAssemble env b dm tp optS emaS sdc).ema_state_dict =
      (match emaS with
       | some sd => some sd
       | none => dm.ema_state_dict) := by
  unfold internalAssemble
  cases pyBind (env.readModelSpecJson (osJoinStr b "model_spec.json")) (fun d =>
      modelSpecFromDict env d) <;> cases optS <;> cases emaS <;> simp

/-- A non-`FileNotFoundError` exception is not absorbed by the
`try/except FileNotFoundError` pattern. -/
theorem tryFileNotFound_propagates {α : Type} (e : PyExc) (h : ∀ msg, e ≠ .fileNotFound msg) :
    tryFileNotFound (Except.error e : Except PyExc α) = .error e := by
  cases e with
  | fileNotFound msg => exact absurd rfl (h msg)
  | typeError msg => rfl
  | exception msg => rfl
  | other kind msg => rfl

/-- A missing file is absorbed by `try/except FileNotFoundError`. -/
theorem tryFileNotFound_absorbs {α : Type} (msg : String) :
    tryFileNotFound (Except.error (.fileNotFound msg) : Except PyExc α) = .ok none := rfl

/-- If loading the optimizer state raises anything but
`FileNotFoundError`, the whole internal strategy raises it. -/
theorem __load_internal_opt_propagates (env : Env) (mt : ModelType) (wd : ModelWeightDtypes)
    (b : String) (tp : TrainProgress) (dm : StableDiffusionModel) (e : PyExc)
    (hmeta : env.readMetaJson (osJoinStr b "meta.json") = .ok tp)
    (hdiff : __load_diffusers env mt wd (some b) = .ok (some dm))
    (hopt : env.torchLoad (osJoinStr (osJoinStr b "optimizer") "optimizer.pt") = .error e)
    (hnf : ∀ msg, e ≠ .fileNotFound msg) :
    __load_internal env mt wd (some b) = .error e := by
  unfold __load_internal
  simp only [osJoin, asPath, pyBind, hmeta, hdiff, hopt, tryFileNotFound_propagates e hnf]

/-- If loading the EMA state raises anything but `FileNotFoundError`
(after the optimizer step got past its own try/except), the whole internal
strategy raises it. -/
theorem __load_internal_ema_propagates (env : Env) (mt : ModelType) (wd : ModelWeightDtypes)
    (b : String) (tp : TrainProgress) (dm : StableDiffusionModel) (optS : Option Nat) (e : PyExc)
    (hmeta : env.readMetaJson (osJoinStr b "meta.json") = .ok tp)
    (hdiff : __load_diffusers env mt wd (some b) = .ok (some dm))
    (hopt : tryFileNotFound (env.torchLoad (osJoinStr (osJoinStr b "optimizer") "optimizer.pt")) =
      .ok optS)
    (hema : env.torchLoad (osJoinStr (osJoinStr b "ema") "ema.pt") = .error e)
    (hnf : ∀ msg, e ≠ .fileNotFound msg) :
    __load_internal env mt wd (some b) = .error e := by
  unfold __load_internal
  simp only [osJoin, asPath, pyBind, hmeta, hdiff, hopt, hema,
    tryFileNotFound_propagates e hnf]

/-- One collected traceback per raising strategy. -/
theorem filterMap_tbOf_length (rs : List (Except PyExc (Option StableDiffusionModel))) :
    (rs.filterMap tbOf).length = rs.countP isErr := by
  induction rs with
  | nil => rfl
  | cons r rs ih =>
    match r with
    | .ok v => simp [tbOf, isErr, List.countP_cons, ih]
    | .error e => simp [tbOf, isErr, List.countP_cons, ih]

/-- C1: `load` tries the four strategies in the fixed priority order
`__load_internal`, `__load_diffusers`, `__load_safetensors`, `__load_ckpt`
and returns the model of the first strategy that succeeds with a non-None
result; the ghost counter `attempted = i + 1` records that the strategies
after the first success are never attempted. -/
theorem load_strategy_priority_c1 (env : Env) (mt : ModelType) (wd : ModelWeightDtypes)
    (base : Option String) (i : Nat) (m : StableDiffusionModel)
    (h1 : ((stratResults env mt wd base).take i).all (fun r => !isOkSome r) = true)
    (h2 : (stratResults env mt wd base).get? i = some (.ok (some m))) :
    stratResults env mt wd base =
      [__load_internal env mt wd base, __load_diffusers env mt wd base,
       __load_safetensors env mt wd base, __load_ckpt env mt wd base] ∧
    load env mt wd base = { attempted := i + 1, printed := [], result := .ok (some m) } := by
  refine ⟨rfl, ?_⟩
  have hgo := loadGo_first_success base (stratResults env mt wd base) 0 [] i m h1 h2
  simpa [load] using hgo

/-- Witness for C1: in a world where only the diffusers layout loads, the
first strategy fails, the second succeeds, and `load` stops there. -/
theorem load_strategy_priority_c1_witness :
    load envDiffusersOk .STABLE_DIFFUSION_15 wdA (some "sd") =
      { attempted := 2, printed := [], result := .ok (some mDiffusers) } :=
  (load_strategy_priority_c1 envDiffusersOk .STABLE_DIFFUSION_15 wdA (some "sd") 1 mDiffusers
    (by decide) (by decide)).2

/-- C2 (amended): when all four strategies fail and `base_model_name` is a
string, `load` raises `Exception("could not load model: " + base_model_name)`;
`load` never returns Python `None` to its caller; when `base_model_name`
is `None` the final raise is a `TypeError` instead (see the
counterexample). -/
theorem load_all_fail_raises_c2 (env : Env) (mt : ModelType) (wd : ModelWeightDtypes)
    (s : String)
    (h : (stratResults env mt wd (some s)).all (fun r => !isOkSome r) = true) :
    (load env mt wd (some s)).result = .error (.exception ("could not load model: " ++ s)) ∧
    ∀ (env' : Env) (mt' : ModelType) (wd' : ModelWeightDtypes) (base' : Option String),
      (load env' mt' wd' base').result ≠ .ok none := by
  constructor
  · have hall : ∀ r ∈ stratResults env mt wd (some s), isOkSome r = false := fun r hr => by
      have hb := List.all_eq_true.mp h r hr
      simpa using hb
    have hgo := loadGo_all_fail (some s) (stratResults env mt wd (some s)) 0 [] hall
    simp [load, hgo, finalExc]
  · intro env' mt' wd' base'
    exact loadGo_ne_ok_none base' _ 0 []

/-- Witness for C2 (amended): with a missing checkpoint named "sd", the
raised exception's message is exactly "could not load model: sd". -/
theorem load_all_fail_raises_c2_witness :
    (load envAllFail .STABLE_DIFFUSION_15 wdA (some "sd")).result =
      .error (.exception ("could not load model: " ++ "sd")) :=
  (load_all_fail_raises_c2 envAllFail .STABLE_DIFFUSION_15 wdA "sd" (by decide)).1

/-- Counterexample to C2 as stated: with `base_model_name = None` all four
strategies fail, yet `load` raises a `TypeError` from
`"could not load model: " + None`, not an `Exception` whose message starts
with "could not load model: ". -/
theorem load_all_fail_raises_c2_counterexample :
    (stratResults envAllFail .STABLE_DIFFUSION_15 wdA none).all (fun r => !isOkSome r) = true ∧
    (load envAllFail .STABLE_DIFFUSION_15 wdA none).result =
      .error (.typeError strConcatNoneMsg) ∧
    ∀ s : String,
      PyExc.typeError strConcatNoneMsg ≠ .exception ("could not load model: " ++ s) := by
  refine ⟨by decide, by decide, ?_⟩
  intro s h
  exact PyExc.noConfusion h

/-- C3: every exception raised inside a strategy is caught and its
traceback collected, so all four strategies are attempted even when the
early ones raise; when all fail, exactly one traceback per raising
strategy has been collected, and they are printed before the final
exception is raised. -/
theorem load_collects_tracebacks_c3 (env : Env) (mt : ModelType) (wd : ModelWeightDtypes)
    (base : Option String)
    (h : (stratResults env mt wd base).all (fun r => !isOkSome r) = true) :
    (load env mt wd base).attempted = 4 ∧
    (load env mt wd base).printed = (stratResults env mt wd base).filterMap tbOf ∧
    (load env mt wd base).printed.length = (stratResults env mt wd base).countP isErr ∧
    (load env mt wd base).result = .error (finalExc base) := by
  have hall : ∀ r ∈ stratResults env mt wd base, isOkSome r = false := fun r hr => by
    have hb := List.all_eq_true.mp h r hr
    simpa using hb
  have hgo := loadGo_all_fail base (stratResults env mt wd base) 0 [] hall
  refine ⟨?_, ?_, ?_, ?_⟩
  · rw [load, hgo]
    rfl
  · rw [load, hgo]
    simp
  · rw [load, hgo]
    simpa using filterMap_tbOf_length (stratResults env mt wd base)
  · rw [load, hgo]

/-- Witness for C3: with a missing checkpoint, all four strategies raise
and all four tracebacks are printed before the final exception. -/
theorem load_collects_tracebacks_c3_witness :
    (load envAllFail .STABLE_DIFFUSION_15 wdA (some "sd")).attempted = 4 ∧
    (load envAllFail .STABLE_DIFFUSION_15 wdA (some "sd")).printed =
      (stratResults envAllFail .STABLE_DIFFUSION_15 wdA (some "sd")).filterMap tbOf ∧
    (load envAllFail .STABLE_DIFFUSION_15 wdA (some "sd")).printed.length =
      (stratResults envAllFail .STABLE_DIFFUSION_15 wdA (some "sd")).countP isErr ∧
    (load envAllFail .STABLE_DIFFUSION_15 wdA (some "sd")).result =
      .error (finalExc (some "sd")) :=
  load_collects_tracebacks_c3 envAllFail .STABLE_DIFFUSION_15 wdA (some "sd") (by decide)

/-- C7: the four strategies `load` tries cover the three checkpoint
layouts of the glossary (directory of sub-model folders via
`__load_internal`/`__load_diffusers`, `.safetensors` via
`__load_safetensors`, `.ckpt` via `__load_ckpt`), and if any strategy
succeeds with a model then `load` returns a model instead of raising. -/
theorem load_layout_strategies_c7 (env : Env) (mt : ModelType) (wd : ModelWeightDtypes)
    (base : Option String) (r : Except PyExc (Option StableDiffusionModel))
    (h1 : r ∈ stratResults env mt wd base) (h2 : isOkSome r = true) :
    stratResults env mt wd base =
      [__load_internal env mt wd base, __load_diffusers env mt wd base,
       __load_safetensors env mt wd base, __load_ckpt env mt wd base] ∧
    ∃ m, (load env mt wd base).result = .ok (some m) :=
  ⟨rfl, loadGo_exists_success base _ 0 [] ⟨r, h1, h2⟩⟩

/-- Witness for C7: in a world where only the safetensors conversion
succeeds, `load` returns a model. -/
theorem load_layout_strategies_c7_witness :
    ∃ m, (load envSafetensorsOk .STABLE_DIFFUSION_15 wdA (some "model.safetensors")).result =
      .ok (some m) :=
  (load_layout_strategies_c7 envSafetensorsOk .STABLE_DIFFUSION_15 wdA
    (some "model.safetensors")
    (__load_safetensors envSafetensorsOk .STABLE_DIFFUSION_15 wdA (some "model.safetensors"))
    (by simp [stratResults]) (by decide)).2

/-- C4: `__default_yaml_name` is the pure map sending each of the eight
supported Stable Diffusion model types to its fixed
`resources/diffusers_model_config/*.yaml` path — with the 2.0/2.1 pairs
sharing `v2-inference-v.yaml` resp. `v2-inference.yaml` — and every other
model type to `None`. -/
theorem default_yaml_map_c4 :
    (__default_yaml_name .STABLE_DIFFUSION_15 =
        some "resources/diffusers_model_config/v1-inference.yaml" ∧
      __default_yaml_name .STABLE_DIFFUSION_15_INPAINTING =
        some "resources/diffusers_model_config/v1-inpainting-inference.yaml" ∧
      __default_yaml_name .STABLE_DIFFUSION_20 =
        some "resources/diffusers_model_config/v2-inference-v.yaml" ∧
      __default_yaml_name .STABLE_DIFFUSION_20_BASE =
        some "resources/diffusers_model_config/v2-inference.yaml" ∧
      __default_yaml_name .STABLE_DIFFUSION_20_INPAINTING =
        some "resources/diffusers_model_config/v2-inpainting-inference.yaml" ∧
      __default_yaml_name .STABLE_DIFFUSION_20_DEPTH =
        some "resources/diffusers_model_config/v2-midas-inference.yaml" ∧
      __default_yaml_name .STABLE_DIFFUSION_21 =
        some "resources/diffusers_model_config/v2-inference-v.yaml" ∧
      __default_yaml_name .STABLE_DIFFUSION_21_BASE =
        some "resources/diffusers_model_config/v2-inference.yaml" ∧
      __default_yaml_name .STABLE_DIFFUSION_20 = __default_yaml_name .STABLE_DIFFUSION_21 ∧
      __default_yaml_name .STABLE_DIFFUSION_20_BASE =
        __default_yaml_name .STABLE_DIFFUSION_21_BASE) ∧
    ∀ mt : ModelType,
      mt ∉ [ModelType.STABLE_DIFFUSION_15, .STABLE_DIFFUSION_15_INPAINTING,
            .STABLE_DIFFUSION_20, .STABLE_DIFFUSION_20_BASE, .STABLE_DIFFUSION_20_INPAINTING,
            .STABLE_DIFFUSION_20_DEPTH, .STABLE_DIFFUSION_21, .STABLE_DIFFUSION_21_BASE] →
      __default_yaml_name mt = none := by
  refine ⟨⟨rfl, rfl, rfl, rfl, rfl, rfl, rfl, rfl, rfl, rfl⟩, ?_⟩
  intro mt hmt
  cases mt <;> first | rfl | exact (hmt (by decide)).elim

/-- Witness for C4: a model type outside the eight supported ones gets no
default config. -/
theorem default_yaml_map_c4_witness : __default_yaml_name .OTHER = none :=
  default_yaml_map_c4.2 .OTHER (by decide)

/-- C5: in both the `.ckpt` and the `.safetensors` strategies the original
config file is chosen by the fixed fallback chain — the sidecar `.yaml`
with the checkpoint's base name if it exists, else the sidecar `.yml` if
it exists, else the model type's `__default_yaml_name`. -/
theorem yaml_fallback_chain_c5 (env : Env) (mt : ModelType) (b : String) :
    ckptYamlName env mt (some b) = .ok (
      if env.pathExists (splitextRoot b ++ ".yaml") then some (splitextRoot b ++ ".yaml")
      else if env.pathExists (splitextRoot b ++ ".yml") then some (splitextRoot b ++ ".yml")
      else __default_yaml_name mt) ∧
    safetensorsYamlName env mt (some b) = ckptYamlName env mt (some b) := by
  constructor
  · unfold ckptYamlName
    cases h1 : env.pathExists (splitextRoot b ++ ".yaml") <;>
      cases h2 : env.pathExists (splitextRoot b ++ ".yml") <;>
        simp [asPath, pyBind, h1, h2]
  · rfl

/-- C6: the model spec is read from exactly the two sources the glossary
names — `model_spec.json` inside the model directory for the internal
strategy and the safetensors metadata under the key
`modelspec.sai_model_spec` for the safetensors strategy — and whenever
reading or parsing fails (or the key is absent) the returned model carries
a freshly constructed default `ModelSpec` instead. -/
theorem model_spec_sources_c6 (env : Env) (mt : ModelType) (wd : ModelWeightDtypes)
    (b : String) (m : StableDiffusionModel) (spec : ModelSpec) (d : Dict) :
    ((pyBind (env.readModelSpecJson (osJoinStr b "model_spec.json")) (fun d' =>
        modelSpecFromDict env d') = .ok spec) →
      __load_internal env mt wd (some b) = .ok (some m) → m.model_spec = some spec) ∧
    ((∃ e, pyBind (env.readModelSpecJson (osJoinStr b "model_spec.json")) (fun d' =>
        modelSpecFromDict env d') = .error e) →
      __load_internal env mt wd (some b) = .ok (some m) →
      m.model_spec = some ModelSpec.defaults) ∧
    ((env.safeOpenMetadata (some b) = .ok d) →
      (d.any (fun kv => kv.1 = "modelspec.sai_model_spec") = true) →
      (env.fromDictRaises d = none) →
      __load_safetensors env mt wd (some b) = .ok (some m) →
      m.model_spec = some (.ofDict d)) ∧
    (((∃ e, env.safeOpenMetadata (some b) = .error e) ∨
      (env.safeOpenMetadata (some b) = .ok d ∧
        (d.any (fun kv => kv.1 = "modelspec.sai_model_spec") = false ∨
          ∃ e, env.fromDictRaises d = some e))) →
      __load_safetensors env mt wd (some b) = .ok (some m) →
      m.model_spec = some ModelSpec.defaults) := by
  refine ⟨?_, ?_, ?_, ?_⟩
  · intro hps h
    rcases __load_internal_shape env mt wd b m h with
      ⟨tp, dm, optS, emaS, sdc, _, _, _, _, _, rfl⟩
    rw [internalAssemble_model_spec, hps]
  · intro hps h
    rcases hps with ⟨e, hps⟩
    rcases __load_internal_shape env mt wd b m h with
      ⟨tp, dm, optS, emaS, sdc, _, _, _, _, _, rfl⟩
    rw [internalAssemble_model_spec, hps]
  · intro hmd hkey hfd h
    have hs := __load_safetensors_shape env mt wd (some b) m h
    rw [hs, hmd]
    simp [pyBind, hkey, modelSpecFromDict, hfd]
  · intro hfail h
    have hs := __load_safetensors_shape env mt wd (some b) m h
    rcases hfail with ⟨e, hmd⟩ | ⟨hmd, hkey | ⟨e, hfd⟩⟩
    · rw [hs, hmd]
      rfl
    · rw [hs, hmd]
      simp [pyBind, hkey]
    · rw [hs, hmd]
      cases hk : d.any (fun kv => kv.1 = "modelspec.sai_model_spec") <;>
        simp [pyBind, modelSpecFromDict, hfd, hk]

/-- Witness for C6: an internal checkpoint whose `model_spec.json` parses
gets that spec; a safetensors checkpoint with the metadata key gets the
metadata spec; a safetensors checkpoint whose `safe_open` fails keeps the
default spec. -/
theorem model_spec_sources_c6_witness :
    (∀ m, __load_internal envInternalSpec .STABLE_DIFFUSION_15 wdA (some "sd") = .ok (some m) →
      m.model_spec = some (.ofDict mdSpec)) ∧
    (∀ m, __load_safetensors envSafetensorsSpec .STABLE_DIFFUSION_15 wdA
        (some "model.safetensors") = .ok (some m) → m.model_spec = some (.ofDict mdSpec)) ∧
    (∀ m, __load_safetensors envSafetensorsOk .STABLE_DIFFUSION_15 wdA
        (some "model.safetensors") = .ok (some m) → m.model_spec = some ModelSpec.defaults) :=
  ⟨fun m => (model_spec_sources_c6 envInternalSpec .STABLE_DIFFUSION_15 wdA "sd" m
      (.ofDict mdSpec) mdSpec).1 (by decide),
   fun m => (model_spec_sources_c6 envSafetensorsSpec .STABLE_DIFFUSION_15 wdA
      "model.safetensors" m (.ofDict mdSpec) mdSpec).2.2.1 (by decide) (by decide) (by decide),
   fun m => (model_spec_sources_c6 envSafetensorsOk .STABLE_DIFFUSION_15 wdA
      "model.safetensors" m ModelSpec.defaults mdSpec).2.2.2
      (Or.inl ⟨.other "E" "so", by decide⟩)⟩

/-- C8: calling `load` with `base_model_name = None` never returns a
model: every strategy raises (the path functions raise `TypeError` on
`None`, and `from_pretrained(None, ...)` raises by hypothesis), and the
final `"could not load model: " + base_model_name` itself raises a
`TypeError` rather than the intended `Exception`. -/
theorem load_none_base_c8 (env : Env) (mt : ModelType) (wd : ModelWeightDtypes) (e : PyExc)
    (h : env.tokenizerFromPretrained none = .error e) :
    (∃ e1, __load_internal env mt wd none = .error e1) ∧
    __load_diffusers env mt wd none = .error e ∧
    (∃ e3, __load_safetensors env mt wd none = .error e3) ∧
    (∃ e4, __load_ckpt env mt wd none = .error e4) ∧
    (load env mt wd none).result = .error (.typeError strConcatNoneMsg) ∧
    ∀ m, (load env mt wd none).result ≠ .ok (some m) := by
  have hint : __load_internal env mt wd none = .error (.typeError noneTypeMsg) := rfl
  have hdif : __load_diffusers env mt wd none = .error e := by
    unfold __load_diffusers
    exact pyBind_error h
  have hsft : __load_safetensors env mt wd none = .error (.typeError noneTypeMsg) := rfl
  have hckp : __load_ckpt env mt wd none = .error (.typeError noneTypeMsg) := rfl
  have hall : ∀ r ∈ stratResults env mt wd none, isOkSome r = false := by
    intro r hr
    simp only [stratResults, List.mem_cons, List.not_mem_nil, or_false] at hr
    rcases hr with rfl | rfl | rfl | rfl
    · rw [hint]; rfl
    · rw [hdif]; rfl
    · rw [hsft]; rfl
    · rw [hckp]; rfl
  have hgo := loadGo_all_fail none (stratResults env mt wd none) 0 [] hall
  have hres : (load env mt wd none).result = .error (.typeError strConcatNoneMsg) := by
    rw [load, hgo]
    rfl
  exact ⟨⟨_, hint⟩, hdif, ⟨_, hsft⟩, ⟨_, hckp⟩, hres, fun m hm => by rw [hres] at hm; cases hm⟩

/-- Witness for C8: with `None` as the model name in a failing world,
`load` raises the string-concatenation `TypeError`. -/
theorem load_none_base_c8_witness :
    (load envAllFail .STABLE_DIFFUSION_15 wdA none).result =
      .error (.typeError strConcatNoneMsg) :=
  (load_none_base_c8 envAllFail .STABLE_DIFFUSION_15 wdA (.other "E" "tok")
    (by decide)).2.2.2.2.1

/-- C9: every model `load` returns, through any of the four strategies,
carries a non-`None` `model_spec`: each strategy starts from a fresh
`ModelSpec()` and only replaces it by a successfully parsed one. -/
theorem model_spec_always_present_c9 (env : Env) (mt : ModelType) (wd : ModelWeightDtypes)
    (base : Option String) (m : StableDiffusionModel)
    (h : (load env mt wd base).result = .ok (some m)) : m.model_spec ≠ none := by
  have hmem := loadGo_ok_mem base (stratResults env mt wd base) 0 [] (some m) h
  simp only [stratResults, List.mem_cons, List.not_mem_nil, or_false] at hmem
  rcases hmem with h1 | h2 | h3 | h4
  · match base, h1 with
    | none, h1 =>
      exact Except.noConfusion (h1.trans
        (show __load_internal env mt wd none = .error (.typeError noneTypeMsg) from rfl))
    | some b, h1 =>
      rcases __load_internal_shape env mt wd b m h1.symm with
        ⟨tp, dm, optS, emaS, sdc, _, _, _, _, _, rfl⟩
      rw [internalAssemble_model_spec]
      simp
  · have hd := __load_diffusers_shape env mt wd base m h2.symm
    rw [hd.1]
    simp
  · have hsp := __load_safetensors_shape env mt wd base m h3.symm
    rw [hsp]
    simp
  · have hc := __load_ckpt_shape env mt wd base m h4.symm
    rw [hc]
    simp

/-- Witness for C9: the model loaded from the diffusers layout carries a
model spec. -/
theorem model_spec_always_present_c9_witness : mDiffusers.model_spec ≠ none :=
  model_spec_always_present_c9 envDiffusersOk .STABLE_DIFFUSION_15 wdA (some "sd") mDiffusers
    (by decide)

/-- C10: in the internal strategy a missing `optimizer/optimizer.pt` or
`ema/ema.pt` is tolerated — the `FileNotFoundError` is absorbed and the
corresponding state-dict field stays unset — while any other exception
from loading them propagates and makes the strategy fail. -/
theorem internal_optional_state_c10 (env : Env) (mt : ModelType) (wd : ModelWeightDtypes)
    (b : String) (m dm : StableDiffusionModel) (tp : TrainProgress) (optS : Option Nat)
    (e : PyExc) (msg : String) :
    ((env.torchLoad (osJoinStr (osJoinStr b "optimizer") "optimizer.pt") =
        .error (.fileNotFound msg)) →
      __load_internal env mt wd (some b) = .ok (some m) → m.optimizer_state_dict = none) ∧
    ((env.torchLoad (osJoinStr (osJoinStr b "ema") "ema.pt") = .error (.fileNotFound msg)) →
      __load_internal env mt wd (some b) = .ok (some m) → m.ema_state_dict = none) ∧
    ((env.readMetaJson (osJoinStr b "meta.json") = .ok tp) →
      (__load_diffusers env mt wd (some b) = .ok (some dm)) →
      (env.torchLoad (osJoinStr (osJoinStr b "optimizer") "optimizer.pt") = .error e) →
      (∀ msg', e ≠ .fileNotFound msg') →
      __load_internal env mt wd (some b) = .error e) ∧
    ((env.readMetaJson (osJoinStr b "meta.json") = .ok tp) →
      (__load_diffusers env mt wd (some b) = .ok (some dm)) →
      (tryFileNotFound (env.torchLoad (osJoinStr (osJoinStr b "optimizer") "optimizer.pt")) =
        .ok optS) →
      (env.torchLoad (osJoinStr (osJoinStr b "ema") "ema.pt") = .error e) →
      (∀ msg', e ≠ .fileNotFound msg') →
      __load_internal env mt wd (some b) = .error e) := by
  refine ⟨?_, ?_, ?_, ?_⟩
  · intro hopt h
    rcases __load_internal_shape env mt wd b m h with
      ⟨tp', dm', optS', emaS', sdc', _, hdm', hoptS, _, _, rfl⟩
    rw [hopt, tryFileNotFound_absorbs] at hoptS
    injection hoptS with hoptS
    rw [internalAssemble_optimizer]
    rw [← hoptS]
    exact (__load_diffusers_shape env mt wd (some b) dm' hdm').2.1
  · intro hema h
    rcases __load_internal_shape env mt wd b m h with
      ⟨tp', dm', optS', emaS', sdc', _, hdm', _, hemaS, _, rfl⟩
    rw [hema, tryFileNotFound_absorbs] at hemaS
    injection hemaS with hemaS
    rw [internalAssemble_ema]
    rw [← hemaS]
    exact (__load_diffusers_shape env mt wd (some b) dm' hdm').2.2.1
  · intro hmeta hdiff hopt hnf
    exact __load_internal_opt_propagates env mt wd b tp dm e hmeta hdiff hopt hnf
  · intro hmeta hdiff hoptS hema hnf
    exact __load_internal_ema_propagates env mt wd b tp dm optS e hmeta hdiff hoptS hema hnf

/-- Witness for C10: with the optimizer and EMA files absent, the internal
strategy still succeeds and both state-dict fields are unset. -/
theorem internal_optional_state_c10_witness :
    __load_internal envInternalOk .STABLE_DIFFUSION_15 wdA (some "sd") = .ok (some mInternal) ∧
    mInternal.optimizer_state_dict = none ∧ mInternal.ema_state_dict = none :=
  ⟨by decide,
   (internal_optional_state_c10 envInternalOk .STABLE_DIFFUSION_15 wdA "sd" mInternal
      mDiffusers ⟨1, 2, 3, 4⟩ none (.other "E" "x") "optimizer.pt").1 (by decide) (by decide),
   (internal_optional_state_c10 envInternalOk .STABLE_DIFFUSION_15 wdA "sd" mInternal
      mDiffusers ⟨1, 2, 3, 4⟩ none (.other "E" "x") "optimizer.pt").2.1 (by decide) (by decide)⟩

end StableDiffusionModelLoader
